import Mathlib

/-!
Verification of the Xapiand Python HTTP client library
(`contrib/python/xapiand/__init__.py`, the newer client, and
`contrib/python/haystack/client.py`, the legacy client).

The development shallowly embeds the request-building pipeline of both
clients: query-parameter transformation, URL construction, status-code
handling, the streamed-response line decoder, and the `Results` wrapper.
Python strings are Lean `String`s, Python `None`-able arguments are
`Option`s, Python dicts used as ordered parameter mappings are association
lists in insertion order.
-/

/-- Scalar values that the clients place into the outgoing query-parameter
mapping: Python bool, int, str and None. -/
inductive Value where
  | vbool : Bool → Value
  | vint : Int → Value
  | vstr : String → Value
  | vnull : Value
deriving DecidableEq

/-- Model of Python `str.replace(old, new)` on character lists for a
nonempty `old`: replace non-overlapping occurrences left to right, fuelled
by the input length (each step consumes at least one character). -/
def replaceL (old new : List Char) : Nat → List Char → List Char
  | _, [] => []
  | 0, cs => cs
  | Nat.succ fuel, c :: cs =>
    if (c :: cs).take old.length = old then
      new ++ replaceL old new fuel ((c :: cs).drop old.length)
    else
      c :: replaceL old new fuel cs

/-- Model of Python `s.replace(old, new)` for the nonempty patterns this
code uses (`__` and `-`). -/
def pyReplace (s old new : String) : String :=
  String.mk (replaceL old.data new.data s.length s.data)

/-- Embeds the per-item query-parameter transform in `_send_request` /
`send_request` (identical in both clients):
`(k.replace('__', '.'), (v and 1 or 0) if isinstance(v, bool) else v)`. -/
def transformParam (kv : String × Value) : String × Value :=
  (pyReplace kv.1 "__" ".",
    match kv.2 with
    | Value.vbool b => Value.vint (if b then 1 else 0)
    | v => v)

/-- Embeds the whole-mapping transform applied to `params` before the HTTP
call, in both clients. -/
def transformParams (ps : List (String × Value)) : List (String × Value) :=
  ps.map transformParam

/-- Actions of the newer client's `_methods` dispatch table. -/
inductive PAction where
  | search | facets | stats | get | delete | head | post | put | patch
deriving DecidableEq

/-- Action name string, as used for the `_<action>/` URL tail. -/
def pActionName : PAction → String
  | PAction.search => "search"
  | PAction.facets => "facets"
  | PAction.stats => "stats"
  | PAction.get => "get"
  | PAction.delete => "delete"
  | PAction.head => "head"
  | PAction.post => "post"
  | PAction.put => "put"
  | PAction.patch => "patch"

/-- HTTP verb of each action in the newer client's `_methods` table
(`session.get`, `session.delete`, ...). -/
def pActionVerb : PAction → String
  | PAction.search => "GET"
  | PAction.facets => "GET"
  | PAction.stats => "GET"
  | PAction.get => "GET"
  | PAction.delete => "DELETE"
  | PAction.head => "HEAD"
  | PAction.post => "POST"
  | PAction.put => "PUT"
  | PAction.patch => "PATCH"

/-- Actions of the legacy client's `_methods` table (no `post`/`put`;
`index` maps directly to the PUT verb). -/
inductive LAction where
  | search | facets | stats | get | delete | head | indexAct | patch
deriving DecidableEq

/-- Action name string for the legacy client (`indexAct` is the Python
action string "index"). -/
def lActionName : LAction → String
  | LAction.search => "search"
  | LAction.facets => "facets"
  | LAction.stats => "stats"
  | LAction.get => "get"
  | LAction.delete => "delete"
  | LAction.head => "head"
  | LAction.indexAct => "index"
  | LAction.patch => "patch"

/-- HTTP verb of each legacy action (`requests.get`, `requests.put`, ...). -/
def lActionVerb : LAction → String
  | LAction.search => "GET"
  | LAction.facets => "GET"
  | LAction.stats => "GET"
  | LAction.get => "GET"
  | LAction.delete => "DELETE"
  | LAction.head => "HEAD"
  | LAction.indexAct => "PUT"
  | LAction.patch => "PATCH"

/-- Configuration of the newer client (`Xapiand.__init__`): ip, port,
commit flag and the optional namespace `prefix` attribute (field `pfx`
here; Lean reserves that word). The port is kept as the string it is
interpolated as. -/
structure Xapiand where
  ip : String
  port : String
  commit : Bool
  pfx : Option String
deriving DecidableEq

/-- Configuration of the legacy client (no namespace attribute). -/
structure XapiandLegacy where
  ip : String
  port : String
  commit : Bool
deriving DecidableEq

/-- Embeds Python `s.partition(':')` restricted to the two components the
clients use: the part before the first colon and the part after it. -/
def partitionColon (s : String) : String × String :=
  match s.splitOn ":" with
  | [] => (s, "")
  | [x] => (x, "")
  | x :: rest => (x, String.intercalate ":" rest)

/-- Embeds the shared host-resolution prologue of `_build_url`/`build_url`:
an explicit ip of the form `host:port` overrides the port, then empty
(`falsy`) ip/port fall back to the client-level defaults. -/
def resolveHost (selfIp selfPort ip0 port0 : String) : String :=
  let ipPort := if ip0 ≠ "" ∧ ip0.contains ':' then partitionColon ip0 else (ip0, port0)
  let ip := if ipPort.1 = "" then selfIp else ipPort.1
  let port := if ipPort.2 = "" then selfPort else ipPort.2
  ip ++ ":" ++ port

/-- Embeds `'{}/'.format(self.prefix) if self.prefix else ''` of the newer
client's `_build_url`. -/
def pfxStr (c : Xapiand) : String :=
  match c.pfx with
  | some p => if p = "" then "" else p ++ "/"
  | none => ""

/-- Embeds the newer client's `Xapiand._build_url`. `index` is the list of
index names (a single Python string becomes a one-element list, exactly as
the source wraps it); `id?` is the optional document id. -/
def buildUrl (c : Xapiand) (action : PAction) (index : List String)
    (ip0 port0 nodename : String) (id? : Option String) : String :=
  let host := resolveHost c.ip c.port ip0 port0
  let indexS := String.intercalate "," (index.map (fun i => pfxStr c ++ i))
  let nodeS := if nodename = "" then "" else "@" ++ nodename
  let tail :=
    if id? = none ∧ action ≠ PAction.post then "_" ++ pActionName action ++ "/"
    else if action = PAction.post then ""
    else id?.getD ""
  "http://" ++ host ++ "/" ++ indexS ++ nodeS ++ "/" ++ tail

/-- Everything of a newer-client URL before the path tail (the output of
`_build_url` up to and including the final `/`). -/
def urlBase (c : Xapiand) (index : List String) (ip0 port0 nodename : String) : String :=
  "http://" ++ resolveHost c.ip c.port ip0 port0 ++ "/" ++
    String.intercalate "," (index.map (fun i => pfxStr c ++ i)) ++
    (if nodename = "" then "" else "@" ++ nodename) ++ "/"

/-- Embeds the legacy client's `Xapiand.build_url`. The legacy endpoint
argument is joined with `,` and carries no namespace; the two
`nodename`-dependent format strings of the source are both covered. -/
def buildUrlLegacy (lc : XapiandLegacy) (action : LAction) (endpoint : List String)
    (ip0 port0 nodename : String) (docId : Option String) : String :=
  let host := resolveHost lc.ip lc.port ip0 port0
  let endpointS := String.intercalate "," endpoint
  match docId with
  | some d =>
    if nodename ≠ "" then
      "http://" ++ host ++ "/" ++ endpointS ++ "@" ++ nodename ++ "/" ++ d
    else
      "http://" ++ host ++ "/" ++ endpointS ++ "/" ++ d
  | none =>
    if nodename ≠ "" then
      "http://" ++ host ++ "/" ++ endpointS ++ "@" ++ nodename ++ "/_" ++ lActionName action ++ "/"
    else
      "http://" ++ host ++ "/" ++ endpointS ++ "/_" ++ lActionName action ++ "/"

/-- Everything of a legacy-client URL before the path tail. -/
def legacyUrlBase (lc : XapiandLegacy) (endpoint : List String)
    (ip0 port0 nodename : String) : String :=
  "http://" ++ resolveHost lc.ip lc.port ip0 port0 ++ "/" ++
    String.intercalate "," endpoint ++
    (if nodename = "" then "" else "@" ++ nodename) ++ "/"

/-- JSON values, the model of what Python's `json.loads` produces and of
dictionary request bodies. -/
inductive Json where
  | null : Json
  | jbool : Bool → Json
  | num : Int → Json
  | str : String → Json
  | arr : List Json → Json
  | obj : List (String × Json) → Json

/-- Outgoing HTTP request as assembled by the request dispatcher before the
transport call: verb, URL, transformed query parameters and the body as
handed in (its serialization by `json.dumps` is a function of the body, so
request equality is compared at this level). -/
structure Request where
  verb : String
  url : String
  params : List (String × Value)
  body : Option Json

/-- Embeds the request-assembling part of the newer client's
`Xapiand._send_request`: dispatch-table verb, `_build_url`, and the
query-parameter transform. -/
def sendRequestReq (c : Xapiand) (action : PAction) (index : List String)
    (ip0 port0 nodename : String) (id? : Option String) (body? : Option Json)
    (params : List (String × Value)) : Request :=
  ⟨pActionVerb action, buildUrl c action index ip0 port0 nodename id?,
    transformParams params, body?⟩

/-- Conditional parameter segment: the newer client's
`if x is not None: kwargs['params'][name] = x` pattern. -/
def optSeg (name : String) (v? : Option Value) : List (String × Value) :=
  match v? with
  | some v => [(name, v)]
  | none => []

/-- Conditional parameter segment of the legacy client, whose condition is
inverted: `if x is None: kwargs['params'][name] = x` stores the parameter,
with value `None`, exactly when it was not supplied. -/
def legacyOptSeg (name : String) (v? : Option Value) : List (String × Value) :=
  match v? with
  | some _ => []
  | none => [(name, Value.vnull)]

/-- Params mapping built by the newer client's `search` method, in
insertion order. -/
def newSearchParams (query prt terms offset limit sort fcts lang : Option Value)
    (pretty volatile : Bool) : List (String × Value) :=
  [("pretty", Value.vbool pretty), ("volatile", Value.vbool volatile)]
    ++ optSeg "query" query ++ optSeg "partial" prt ++ optSeg "terms" terms
    ++ optSeg "offset" offset ++ optSeg "limit" limit ++ optSeg "sort" sort
    ++ optSeg "facets" fcts ++ optSeg "language" lang

/-- Params mapping built by the newer client's `facets` method (the source
duplicates the `search` body verbatim). -/
def newFacetsParams (query prt terms offset limit sort fcts lang : Option Value)
    (pretty volatile : Bool) : List (String × Value) :=
  [("pretty", Value.vbool pretty), ("volatile", Value.vbool volatile)]
    ++ optSeg "query" query ++ optSeg "partial" prt ++ optSeg "terms" terms
    ++ optSeg "offset" offset ++ optSeg "limit" limit ++ optSeg "sort" sort
    ++ optSeg "facets" fcts ++ optSeg "language" lang

/-- Params mapping of the newer client's `stats` method. -/
def newStatsParams (pretty : Bool) : List (String × Value) :=
  [("pretty", Value.vbool pretty)]

/-- Params mapping of the newer client's `head` method. -/
def newHeadParams (pretty : Bool) : List (String × Value) :=
  [("pretty", Value.vbool pretty)]

/-- Params mapping of the newer client's `get` method. -/
def newGetParams (pretty volatile : Bool) : List (String × Value) :=
  [("pretty", Value.vbool pretty), ("volatile", Value.vbool volatile)]

/-- Params mapping of the newer client's `delete` method
(`commit=self.commit if commit is None else commit`). -/
def newDeleteParams (c : Xapiand) (commit? : Option Bool) (pretty : Bool) :
    List (String × Value) :=
  [("commit", Value.vbool (commit?.getD c.commit)), ("pretty", Value.vbool pretty)]

/-- Params mapping of the newer client's `post` method. -/
def newPostParams (c : Xapiand) (commit? : Option Bool) (pretty : Bool) :
    List (String × Value) :=
  [("commit", Value.vbool (commit?.getD c.commit)), ("pretty", Value.vbool pretty)]

/-- Params mapping of the newer client's `put` method. -/
def newPutParams (c : Xapiand) (commit? : Option Bool) (pretty : Bool) :
    List (String × Value) :=
  [("commit", Value.vbool (commit?.getD c.commit)), ("pretty", Value.vbool pretty)]

/-- Params mapping of the newer client's `patch` method. -/
def newPatchParams (c : Xapiand) (commit? : Option Bool) (pretty : Bool) :
    List (String × Value) :=
  [("commit", Value.vbool (commit?.getD c.commit)), ("pretty", Value.vbool pretty)]

/-- Params mapping built by the legacy client's `search` method: `pretty`
always, each optional parameter stored only when it is `None`. -/
def legacySearchParams (query prt terms offset limit sort fcts lang : Option Value)
    (pretty : Bool) : List (String × Value) :=
  [("pretty", Value.vbool pretty)]
    ++ legacyOptSeg "query" query ++ legacyOptSeg "partial" prt
    ++ legacyOptSeg "terms" terms ++ legacyOptSeg "offset" offset
    ++ legacyOptSeg "limit" limit ++ legacyOptSeg "sort" sort
    ++ legacyOptSeg "facets" fcts ++ legacyOptSeg "language" lang

/-- Params mapping built by the legacy client's `facets` method (verbatim
duplicate of the legacy `search` body). -/
def legacyFacetsParams (query prt terms offset limit sort fcts lang : Option Value)
    (pretty : Bool) : List (String × Value) :=
  [("pretty", Value.vbool pretty)]
    ++ legacyOptSeg "query" query ++ legacyOptSeg "partial" prt
    ++ legacyOptSeg "terms" terms ++ legacyOptSeg "offset" offset
    ++ legacyOptSeg "limit" limit ++ legacyOptSeg "sort" sort
    ++ legacyOptSeg "facets" fcts ++ legacyOptSeg "language" lang

/-- Params mapping of the legacy client's `stats` method. -/
def legacyStatsParams (pretty : Bool) : List (String × Value) :=
  [("pretty", Value.vbool pretty)]

/-- Params mapping of the legacy client's `head` method. -/
def legacyHeadParams (pretty : Bool) : List (String × Value) :=
  [("pretty", Value.vbool pretty)]

/-- Params mapping of the legacy client's `get` method. -/
def legacyGetParams (pretty : Bool) : List (String × Value) :=
  [("pretty", Value.vbool pretty)]

/-- Params mapping of the legacy client's `delete` method. -/
def legacyDeleteParams (lc : XapiandLegacy) (commit? : Option Bool) (pretty : Bool) :
    List (String × Value) :=
  [("commit", Value.vbool (commit?.getD lc.commit)), ("pretty", Value.vbool pretty)]

/-- Params mapping of the legacy client's `index` method. -/
def legacyIndexParams (lc : XapiandLegacy) (commit? : Option Bool) (pretty : Bool) :
    List (String × Value) :=
  [("commit", Value.vbool (commit?.getD lc.commit)), ("pretty", Value.vbool pretty)]

/-- Params mapping of the legacy client's `patch` method. -/
def legacyPatchParams (lc : XapiandLegacy) (commit? : Option Bool) (pretty : Bool) :
    List (String × Value) :=
  [("commit", Value.vbool (commit?.getD lc.commit)), ("pretty", Value.vbool pretty)]

/-- Embeds the newer client's `search` method as a request builder: it sets
no document id and no body and delegates to `_send_request` with the action
`search`. The per-call ip/port/nodename (reachable via `kwargs`) default to
empty. -/
def searchReq (c : Xapiand) (index : List String)
    (query prt terms offset limit sort fcts lang : Option Value)
    (pretty volatile : Bool) : Request :=
  sendRequestReq c PAction.search index "" "" "" none none
    (newSearchParams query prt terms offset limit sort fcts lang pretty volatile)

/-- Embeds the newer client's `put` method as a request builder (document
id, body, commit/pretty params, action `put`); extra ip/port/nodename model
the same `kwargs` entries `_send_request` accepts. -/
def putReq (c : Xapiand) (index : List String) (body : Json) (id : String)
    (commit? : Option Bool) (pretty : Bool) (ip0 port0 nodename : String) : Request :=
  sendRequestReq c PAction.put index ip0 port0 nodename (some id) (some body)
    (newPutParams c commit? pretty)

/-- Embeds the source line `index = put` of the newer client: the `index`
method is the very same function object as `put`. -/
def indexReq : Xapiand → List String → Json → String → Option Bool → Bool →
    String → String → String → Request :=
  putReq

/-- The module-level `live` client instance:
`Xapiand(ip=XAPIAND_HOST, port=XAPIAND_PORT, commit=XAPIAND_COMMIT, prefix=XAPIAND_LIVE_PREFIX)`. -/
def liveClient : Xapiand := ⟨"127.0.0.1", "8880", false, some "live"⟩

/-- Legacy client with its default construction arguments. -/
def legacyClient : XapiandLegacy := ⟨"127.0.0.1", "8880", false⟩

/-- Outcome of the status-code handling step of a request: proceed to
response decoding, raise `DoesNotExist`, return the caller-supplied
default, or raise `HTTPError` carrying a status code. -/
inductive SendOutcome where
  | proceed : SendOutcome
  | raiseDoesNotExist : SendOutcome
  | returnDefault : Value → SendOutcome
  | raiseHTTPError : Nat → SendOutcome
deriving DecidableEq

/-- Model of `requests.Response.raise_for_status` (the transport library
the newer client calls): it raises `HTTPError` carrying the status code
exactly when `400 <= status < 600`, and is silent otherwise (including
1xx/3xx). -/
def raiseForStatus (status : Nat) : Option Nat :=
  if 400 ≤ status ∧ status < 600 then some status else none

/-- Embeds the status-code policy of the newer client's `_send_request`:
`if res.status_code == 404 and action_request in ('patch', 'delete', 'get')`
then raise `DoesNotExist` when `default is NA` (modelled `none`) and return
the default otherwise; every other status goes through
`res.raise_for_status()`. -/
def newStatusOutcome (action : PAction) (status : Nat) (default? : Option Value) :
    SendOutcome :=
  if status = 404 ∧ (action = PAction.patch ∨ action = PAction.delete ∨ action = PAction.get) then
    match default? with
    | none => SendOutcome.raiseDoesNotExist
    | some d => SendOutcome.returnDefault d
  else
    match raiseForStatus status with
    | some sc => SendOutcome.raiseHTTPError sc
    | none => SendOutcome.proceed

/-- Embeds the status-code policy of the legacy client's `send_request`:
`if res.status_code != 200: raise requests.exceptions.HTTPError("Return
code is %s" % res.status_code)` — the raised error's message carries the
status code, modelled as the `raiseHTTPError` payload. -/
def legacyStatusOutcome (status : Nat) : SendOutcome :=
  if status ≠ 200 then SendOutcome.raiseHTTPError status else SendOutcome.proceed

/-- Opening and closing curly-brace characters, by code point. -/
def lbrace : Char := Char.ofNat 123

/-- Closing curly brace, by code point. -/
def rbrace : Char := Char.ofNat 125

/-- Model of Python `str.lstrip()` on the character list. -/
def skipWsL (cs : List Char) : List Char := cs.dropWhile Char.isWhitespace

/-- Model of Python `str.lstrip()`. -/
def lstripWs (s : String) : String := String.mk (s.data.dropWhile Char.isWhitespace)

/-- Model of Python `str.rstrip()`. -/
def rstripWs (s : String) : String :=
  String.mk ((s.data.reverse.dropWhile Char.isWhitespace).reverse)

/-- Model of Python `str.rstrip(',')`: drop every trailing comma. -/
def rstripCommas (s : String) : String :=
  String.mk ((s.data.reverse.dropWhile (fun c => c = ',')).reverse)

/-- Model of Python `str.startswith` on whole strings, via character
lists (kept structurally recursive so proofs can evaluate it). -/
def lstartsWith (s pre : String) : Bool := List.isPrefixOf pre.data s.data

/-- Model of Python `str.endswith` on whole strings, via character lists. -/
def lendsWith (s suf : String) : Bool := List.isPrefixOf suf.data.reverse s.data.reverse

/-- Digit run to a natural number. -/
def digitsToNat (ds : List Char) : Nat :=
  ds.foldl (fun acc c => acc * 10 + (c.toNat - 48)) 0

/-- Parse a JSON string literal body after the opening quote, up to the
closing quote. Escape sequences do not occur in any input of this
development and are not modelled. -/
def parseStringLit (cs : List Char) : Option (String × List Char) :=
  let body := cs.takeWhile (fun c => c ≠ '"')
  let rest := cs.dropWhile (fun c => c ≠ '"')
  match rest with
  | c :: r => if c = '"' then some (String.mk body, r) else none
  | [] => none

/-- Result alternative of the single-function JSON parser: a value, an
object's field list, or an array's element list. -/
inductive PRes where
  | v : Json → PRes
  | fs : List (String × Json) → PRes
  | es : List Json → PRes

/-- Fuel-indexed recursive-descent JSON parser, the model of Python's
`json.loads` grammar on the inputs this client feeds it. The `mode`
argument selects what is parsed: 0 a value, 1 an object's members after
the opening brace (nonempty case), 2 an array's elements after the opening
bracket (nonempty case). A single structurally recursive function so that
proofs can evaluate it. -/
def parseStep : Nat → Nat → List Char → Option (PRes × List Char)
  | 0, _, _ => none
  | Nat.succ fuel, mode, cs0 =>
    if mode = 0 then
      match skipWsL cs0 with
      | [] => none
      | c :: rest =>
        if c = '"' then
          match parseStringLit rest with
          | some (s, r) => some (PRes.v (Json.str s), r)
          | none => none
        else if c = lbrace then
          match skipWsL rest with
          | c2 :: r2 =>
            if c2 = rbrace then some (PRes.v (Json.obj []), r2)
            else
              match parseStep fuel 1 (skipWsL rest) with
              | some (PRes.fs fields, r) => some (PRes.v (Json.obj fields), r)
              | _ => none
          | [] => none
        else if c = '[' then
          match skipWsL rest with
          | c2 :: r2 =>
            if c2 = ']' then some (PRes.v (Json.arr []), r2)
            else
              match parseStep fuel 2 (skipWsL rest) with
              | some (PRes.es xs, r) => some (PRes.v (Json.arr xs), r)
              | _ => none
          | [] => none
        else if c = 't' then
          if rest.take 3 = ['r', 'u', 'e'] then some (PRes.v (Json.jbool true), rest.drop 3)
          else none
        else if c = 'f' then
          if rest.take 4 = ['a', 'l', 's', 'e'] then some (PRes.v (Json.jbool false), rest.drop 4)
          else none
        else if c = 'n' then
          if rest.take 3 = ['u', 'l', 'l'] then some (PRes.v Json.null, rest.drop 3)
          else none
        else if c = '-' then
          let ds := rest.takeWhile Char.isDigit
          let r := rest.dropWhile Char.isDigit
          if ds = [] then none else some (PRes.v (Json.num (-(digitsToNat ds : Int))), r)
        else if c.isDigit then
          let ds := (c :: rest).takeWhile Char.isDigit
          let r := (c :: rest).dropWhile Char.isDigit
          some (PRes.v (Json.num (digitsToNat ds : Int)), r)
        else none
    else if mode = 1 then
      match skipWsL cs0 with
      | c :: rest =>
        if c = '"' then
          match parseStringLit rest with
          | some (k, r) =>
            match skipWsL r with
            | c2 :: r2 =>
              if c2 = ':' then
                match parseStep fuel 0 r2 with
                | some (PRes.v v, r3) =>
                  match skipWsL r3 with
                  | c3 :: r4 =>
                    if c3 = ',' then
                      match parseStep fuel 1 r4 with
                      | some (PRes.fs fields, r5) => some (PRes.fs ((k, v) :: fields), r5)
                      | _ => none
                    else if c3 = rbrace then some (PRes.fs [(k, v)], r4)
                    else none
                  | [] => none
                | _ => none
              else none
            | [] => none
          | none => none
        else none
      | [] => none
    else
      match parseStep fuel 0 cs0 with
      | some (PRes.v v, r) =>
        match skipWsL r with
        | c :: r2 =>
          if c = ',' then
            match parseStep fuel 2 r2 with
            | some (PRes.es xs, r3) => some (PRes.es (v :: xs), r3)
            | _ => none
          else if c = ']' then some (PRes.es [v], r2)
          else none
        | [] => none
      | _ => none

/-- Model of Python `json.loads`: parse one JSON value and require only
whitespace to remain, else the call raises (modelled `none`). -/
def jsonLoads (s : String) : Option Json :=
  match parseStep (2 * s.length + 4) 0 s.data with
  | some (PRes.v v, rest) => if skipWsL rest = [] then some v else none
  | _ => none

/-- What the streamed-response decoder of `_send_request` does to one
non-empty line before `json.loads`: skip it entirely if its left-stripped
form starts with `]`; append the closing fragment `]` + two closing braces
if its right-stripped form ends with `[`; otherwise strip trailing
whitespace and commas. -/
inductive LineStep where
  | skip : LineStep
  | parse : String → LineStep
deriving DecidableEq

/-- Per-line dispatch of the streamed decoder (the `is_json` branch of the
`results` generator in `_send_request`). -/
def lineStep (line : String) : LineStep :=
  if lstartsWith (lstripWs line) "]" then LineStep.skip
  else if lendsWith (rstripWs line) "[" then LineStep.parse (line ++ "]\x7d\x7d")
  else LineStep.parse (rstripCommas (rstripWs line))

/-- Embeds the streamed decoder of `_send_request` on a finite chunk list:
empty chunks are dropped (the `if l` filter when the generator refills its
cache), each remaining line goes through `lineStep`, and a `json.loads`
failure raises inside the generator, aborting the iteration after the
previously yielded values. Returns the yielded values and whether a decode
error aborted the stream. The fixed-size (100-line) cache refill of the
source only batches consumption and does not change the yielded sequence
for the inputs considered here. -/
def decodeLines : List String → List Json × Bool
  | [] => ([], false)
  | l :: ls =>
    if l = "" then decodeLines ls
    else
      match lineStep l with
      | LineStep.skip => decodeLines ls
      | LineStep.parse s =>
        match jsonLoads s with
        | some j =>
          let p := decodeLines ls
          (j :: p.1, p.2)
        | none => ([], true)

/-- Attribute renaming applied when `_send_request` copies response headers
onto the result object: `k.replace('-', '_')`. -/
def headerAttrName (k : String) : String := pyReplace k "-" "_"

/-- Embeds `meta.get('_query', {}).items()` of `Results.__init__`. The
metadata record is a decoded JSON value; a missing `_query` key yields the
empty default. (A non-object `_query` value would raise `AttributeError`
in Python and does not occur here.) -/
def metaQueryItems (meta : Json) : List (String × Json) :=
  match meta with
  | Json.obj fs =>
    match List.lookup "_query" fs with
    | some (Json.obj g) => g
    | _ => []
  | _ => []

/-- Embeds the `Results.__init__` attribute loop: every `_query` item whose
key begins with `_` is stored as an attribute under that same
(underscore-prefixed) name. (Python `k[0]` on an empty key would raise;
keys here are nonempty.) -/
def resultsInitAttrs (meta : Json) : List (String × Json) :=
  (metaQueryItems meta).filter (fun kv => lstartsWith kv.1 "_")

/-- Model of Python `int(v)` on the JSON values this code applies it to. -/
def jsonToInt : Json → Int
  | Json.num n => n
  | _ => 0

/-- Model of `getattr(self, name, dflt)` over an attribute list in which
the most recently set binding comes first. -/
def getattrD (attrs : List (String × Json)) (name : String) (dflt : Json) : Json :=
  (List.lookup name attrs).getD dflt

/-- Embeds `Results.__len__`: `int(getattr(self, 'total_count', 0))`. -/
def resultsLen (attrs : List (String × Json)) : Int :=
  jsonToInt (getattrD attrs "total_count" (Json.num 0))

/-- Attributes of a `Results` object after `_send_request` has also copied
the response headers onto it; headers are set last, so their bindings come
first for lookup. -/
def resultsAttrs (meta : Json) (headers : List (String × Json)) :
    List (String × Json) :=
  headers.map (fun kv => (headerAttrName kv.1, kv.2)) ++ resultsInitAttrs meta

/-- State of iterating a `Results` object: `__iter__` returns the object
itself, so every iteration shares the one remaining-elements state of the
underlying generator. -/
structure ResultsIter where
  remaining : List Json

/-- Consume a generator state to exhaustion. -/
def drainFrom : List Json → List Json × List Json
  | [] => ([], [])
  | x :: xs =>
    let p := drainFrom xs
    (x :: p.1, p.2)

/-- Iterate a `Results` object to exhaustion (a `for` loop): the values
yielded and the shared state left behind. -/
def resultsDrain (it : ResultsIter) : List Json × ResultsIter :=
  let p := drainFrom it.remaining
  (p.1, ⟨p.2⟩)

/-- Keys of a parameter mapping. -/
def paramKeys (ps : List (String × Value)) : List String := ps.map Prod.fst


/-- C7: constructing a client with prefix "live" (default host 127.0.0.1,
port 8880) and calling `search("books", query="title:dune")` builds exactly
the URL `http://127.0.0.1:8880/live/books/_search/`, and the outgoing
query-parameter mapping contains `query=title:dune` and `pretty=0`. -/
theorem c7_live_search_roundtrip :
    (searchReq liveClient ["books"] (some (Value.vstr "title:dune")) none none none
        none none none none false false).url =
      "http://127.0.0.1:8880/live/books/_search/" ∧
    ("query", Value.vstr "title:dune") ∈
      (searchReq liveClient ["books"] (some (Value.vstr "title:dune")) none none none
        none none none none false false).params ∧
    ("pretty", Value.vint 0) ∈
      (searchReq liveClient ["books"] (some (Value.vstr "title:dune")) none none none
        none none none none false false).params := by
  have hp : (searchReq liveClient ["books"] (some (Value.vstr "title:dune")) none none
      none none none none none false false).params =
      [("pretty", Value.vint 0), ("volatile", Value.vint 0),
        ("query", Value.vstr "title:dune")] := by decide
  refine ⟨by decide, ?_, ?_⟩
  · rw [hp]; simp
  · rw [hp]; simp

/-- C8: `index(...)` and `put(...)` invoked with identical arguments on the
same client produce identical requests — same verb, same URL, same body and
same query parameters (in the source, `index = put` binds the very same
method). -/
theorem c8_index_put_identical (c : Xapiand) (index : List String) (body : Json)
    (id : String) (commit? : Option Bool) (pretty : Bool)
    (ip0 port0 nodename : String) :
    (indexReq c index body id commit? pretty ip0 port0 nodename).verb =
      (putReq c index body id commit? pretty ip0 port0 nodename).verb ∧
    (indexReq c index body id commit? pretty ip0 port0 nodename).url =
      (putReq c index body id commit? pretty ip0 port0 nodename).url ∧
    (indexReq c index body id commit? pretty ip0 port0 nodename).body =
      (putReq c index body id commit? pretty ip0 port0 nodename).body ∧
    (indexReq c index body id commit? pretty ip0 port0 nodename).params =
      (putReq c index body id commit? pretty ip0 port0 nodename).params ∧
    indexReq c index body id commit? pretty ip0 port0 nodename =
      putReq c index body id commit? pretty ip0 port0 nodename :=
  ⟨rfl, rfl, rfl, rfl, rfl⟩

/-- C10: in the newer client, building a URL for the creation action `post`
produces the empty path tail for every document id — a supplied id is
silently ignored, so `post` with an id yields exactly the URL of `post`
without an id on the same host, port, namespace, index names and nodename. -/
theorem c10_post_ignores_id (c : Xapiand) (index : List String)
    (ip0 port0 nodename : String) (id : String) :
    buildUrl c PAction.post index ip0 port0 nodename (some id) =
      buildUrl c PAction.post index ip0 port0 nodename none := by
  simp [buildUrl]

/-- C6: for every query-parameter mapping passed to the request dispatcher,
each key has `__` replaced by `.`, each boolean value becomes the integer 1
or 0 (never a boolean), and every non-boolean value passes through
unchanged. -/
theorem c6_param_transform (ps : List (String × Value)) (k : String) (v : Value) :
    transformParams ps = ps.map transformParam ∧
    (transformParam (k, v)).1 = pyReplace k "__" "." ∧
    (transformParam (k, Value.vbool true)).2 = Value.vint 1 ∧
    (transformParam (k, Value.vbool false)).2 = Value.vint 0 ∧
    ((∀ b, v ≠ Value.vbool b) → (transformParam (k, v)).2 = v) ∧
    (∀ kv, kv ∈ transformParams ps → ∀ b, kv.2 ≠ Value.vbool b) := by
  refine ⟨rfl, rfl, rfl, rfl, ?_, ?_⟩
  · intro h
    cases v with
    | vbool b => exact absurd rfl (h b)
    | vint n => rfl
    | vstr s => rfl
    | vnull => rfl
  · intro kv hkv b
    simp only [transformParams, List.mem_map] at hkv
    obtain ⟨kv0, _, rfl⟩ := hkv
    obtain ⟨k0, v0⟩ := kv0
    cases v0 <;> simp [transformParam]

/-- Witness for `c6_param_transform` at a concrete non-boolean value. -/
theorem c6_param_transform_witness :
    (transformParam ("a__b", Value.vstr "x")).2 = Value.vstr "x" :=
  (c6_param_transform [] "a__b" (Value.vstr "x")).2.2.2.2.1
    (fun _ h => Value.noConfusion h)

/-- C1: a 404 response on the get, patch and delete actions raises
`DoesNotExist` when the caller supplied no default and returns exactly the
caller-supplied default otherwise; no other action gets this recovery (a
404 elsewhere goes through `raise_for_status` and raises `HTTPError`). -/
theorem c1_notfound_recovery (action : PAction) (status : Nat) (d? : Option Value)
    (h : status = 404) :
    ((action = PAction.get ∨ action = PAction.patch ∨ action = PAction.delete) →
      (d? = none → newStatusOutcome action status d? = SendOutcome.raiseDoesNotExist) ∧
      (∀ v, d? = some v →
        newStatusOutcome action status d? = SendOutcome.returnDefault v)) ∧
    (¬(action = PAction.get ∨ action = PAction.patch ∨ action = PAction.delete) →
      newStatusOutcome action status d? = SendOutcome.raiseHTTPError 404) := by
  subst h
  cases action <;> cases d? <;> simp [newStatusOutcome, raiseForStatus]

/-- Witness for `c1_notfound_recovery`: the three behaviors at concrete
inputs. -/
theorem c1_notfound_recovery_witness :
    newStatusOutcome PAction.get 404 none = SendOutcome.raiseDoesNotExist ∧
    newStatusOutcome PAction.get 404 (some (Value.vint 7)) =
      SendOutcome.returnDefault (Value.vint 7) ∧
    newStatusOutcome PAction.head 404 none = SendOutcome.raiseHTTPError 404 :=
  ⟨((c1_notfound_recovery PAction.get 404 none rfl).1 (Or.inl rfl)).1 rfl,
   ((c1_notfound_recovery PAction.get 404 (some (Value.vint 7)) rfl).1
      (Or.inl rfl)).2 (Value.vint 7) rfl,
   (c1_notfound_recovery PAction.head 404 none rfl).2 (by decide)⟩

/-- C4: for every action, index list and optional document id, both URL
builders produce the documented path tail deterministically: a given id
with a non-creation action yields the literal id; no id with a non-creation
action yields `_<action>/`; the creation action (`post`, which exists only
in the newer client) with no id yields an empty tail. -/
theorem c4_url_tail (c : Xapiand) (lc : XapiandLegacy) (action : PAction)
    (laction : LAction) (index endpoint : List String)
    (ip0 port0 nodename : String) (id? docId : Option String) :
    (∀ d, id? = some d → action ≠ PAction.post →
      buildUrl c action index ip0 port0 nodename id? =
        urlBase c index ip0 port0 nodename ++ d) ∧
    (id? = none → action ≠ PAction.post →
      buildUrl c action index ip0 port0 nodename id? =
        urlBase c index ip0 port0 nodename ++ ("_" ++ pActionName action ++ "/")) ∧
    (action = PAction.post → id? = none →
      buildUrl c action index ip0 port0 nodename id? =
        urlBase c index ip0 port0 nodename) ∧
    (∀ d, docId = some d →
      buildUrlLegacy lc laction endpoint ip0 port0 nodename docId =
        legacyUrlBase lc endpoint ip0 port0 nodename ++ d) ∧
    (docId = none →
      buildUrlLegacy lc laction endpoint ip0 port0 nodename docId =
        legacyUrlBase lc endpoint ip0 port0 nodename ++
          ("_" ++ lActionName laction ++ "/")) := by
  refine ⟨?_, ?_, ?_, ?_, ?_⟩
  · rintro d rfl hpost
    simp [buildUrl, urlBase, hpost, String.append_assoc]
  · rintro rfl hpost
    simp [buildUrl, urlBase, hpost, String.append_assoc]
  · rintro rfl rfl
    simp [buildUrl, urlBase, String.append_assoc]
  · rintro d rfl
    by_cases hn : nodename = "" <;>
      simp [buildUrlLegacy, legacyUrlBase, hn, String.append_assoc]
  · rintro rfl
    have hlit : ∀ y : String, "/_" ++ y = "/" ++ ("_" ++ y) := fun _ => rfl
    by_cases hn : nodename = "" <;>
      simp [buildUrlLegacy, legacyUrlBase, hn, hlit, String.append_assoc]

/-- Witness for `c4_url_tail`: each clause at concrete inputs. -/
theorem c4_url_tail_witness :
    buildUrl liveClient PAction.get ["books"] "" "" "" (some "42") =
      urlBase liveClient ["books"] "" "" "" ++ "42" ∧
    buildUrl liveClient PAction.search ["books"] "" "" "" none =
      urlBase liveClient ["books"] "" "" "" ++ ("_" ++ pActionName PAction.search ++ "/") ∧
    buildUrl liveClient PAction.post ["books"] "" "" "" none =
      urlBase liveClient ["books"] "" "" "" ∧
    buildUrlLegacy legacyClient LAction.get ["books"] "" "" "" (some "42") =
      legacyUrlBase legacyClient ["books"] "" "" "" ++ "42" ∧
    buildUrlLegacy legacyClient LAction.search ["books"] "" "" "" none =
      legacyUrlBase legacyClient ["books"] "" "" "" ++
        ("_" ++ lActionName LAction.search ++ "/") :=
  ⟨(c4_url_tail liveClient legacyClient PAction.get LAction.get ["books"] ["books"]
      "" "" "" (some "42") (some "42")).1 "42" rfl (by decide),
   (c4_url_tail liveClient legacyClient PAction.search LAction.search ["books"] ["books"]
      "" "" "" none none).2.1 rfl (by decide),
   (c4_url_tail liveClient legacyClient PAction.post LAction.search ["books"] ["books"]
      "" "" "" none none).2.2.1 rfl rfl,
   (c4_url_tail liveClient legacyClient PAction.get LAction.get ["books"] ["books"]
      "" "" "" (some "42") (some "42")).2.2.2.1 "42" rfl,
   (c4_url_tail liveClient legacyClient PAction.search LAction.search ["books"] ["books"]
      "" "" "" none none).2.2.2.2 rfl⟩

/-- C5 counterexample: the status 204 is a 2xx success, yet the legacy
client's `send_request` raises `HTTPError` on it (its check is
`status != 200`), so the claim that no 2xx status ever raises in both
client variants is false. -/
theorem c5_counterexample :
    (200 ≤ 204 ∧ 204 < 300) ∧
    legacyStatusOutcome 204 = SendOutcome.raiseHTTPError 204 := by
  exact ⟨by decide, by decide⟩

/-- C5 amended: in the newer client a status in [400, 600) other than the
404-on-get/patch/delete special case raises `HTTPError` carrying the
original status code, every 2xx is silent, and a status outside [400, 600)
(such as 304) is also silent because `raise_for_status` ignores it; in the
legacy client every status other than 200 — including 2xx successes —
raises `HTTPError` carrying the status code, and 200 never raises. -/
theorem c5_amended (action : PAction) (status : Nat) (d? : Option Value) :
    (200 ≤ status ∧ status < 300 →
      newStatusOutcome action status d? = SendOutcome.proceed) ∧
    (400 ≤ status → status < 600 →
      ¬(status = 404 ∧
          (action = PAction.patch ∨ action = PAction.delete ∨ action = PAction.get)) →
      newStatusOutcome action status d? = SendOutcome.raiseHTTPError status) ∧
    (status < 400 ∨ 600 ≤ status →
      newStatusOutcome action status d? = SendOutcome.proceed) ∧
    (status ≠ 200 → legacyStatusOutcome status = SendOutcome.raiseHTTPError status) ∧
    (status = 200 → legacyStatusOutcome status = SendOutcome.proceed) := by
  refine ⟨?_, ?_, ?_, ?_, ?_⟩
  · rintro ⟨h1, h2⟩
    have hc : ¬(status = 404 ∧
        (action = PAction.patch ∨ action = PAction.delete ∨ action = PAction.get)) :=
      fun hh => by have := hh.1; omega
    have hr : ¬(400 ≤ status ∧ status < 600) := fun hh => by omega
    simp [newStatusOutcome, raiseForStatus, hc, hr]
  · intro h4 h6 hn
    have hr : 400 ≤ status ∧ status < 600 := ⟨h4, h6⟩
    simp [newStatusOutcome, raiseForStatus, hn, hr]
  · intro h
    have hc : ¬(status = 404 ∧
        (action = PAction.patch ∨ action = PAction.delete ∨ action = PAction.get)) :=
      fun hh => by have := hh.1; omega
    have hr : ¬(400 ≤ status ∧ status < 600) := fun hh => by omega
    simp [newStatusOutcome, raiseForStatus, hc, hr]
  · intro h
    simp [legacyStatusOutcome, h]
  · intro h
    simp [legacyStatusOutcome, h]

/-- Witness for `c5_amended`: silent 304 and silent 2xx in the newer
client, and a raising 500 plus a silent 200 in the legacy client. -/
theorem c5_amended_witness :
    newStatusOutcome PAction.get 304 none = SendOutcome.proceed ∧
    newStatusOutcome PAction.search 201 none = SendOutcome.proceed ∧
    legacyStatusOutcome 500 = SendOutcome.raiseHTTPError 500 ∧
    legacyStatusOutcome 200 = SendOutcome.proceed :=
  ⟨(c5_amended PAction.get 304 none).2.2.1 (Or.inl (by decide)),
   (c5_amended PAction.search 201 none).1 (by decide),
   (c5_amended PAction.search 500 none).2.2.2.1 (by decide),
   (c5_amended PAction.search 200 none).2.2.2.2 rfl⟩

/-- Key membership in a conditional parameter segment of the newer client:
the key appears exactly when the parameter was supplied. -/
theorem mem_paramKeys_optSeg (n m : String) (v? : Option Value) :
    n ∈ paramKeys (optSeg m v?) ↔ n = m ∧ v? ≠ none := by
  cases v? <;> simp [optSeg, paramKeys]

/-- Key membership in a conditional parameter segment of the legacy client:
the key appears exactly when the parameter was NOT supplied. -/
theorem mem_paramKeys_legacyOptSeg (n m : String) (v? : Option Value) :
    n ∈ paramKeys (legacyOptSeg m v?) ↔ n = m ∧ v? = none := by
  cases v? <;> simp [legacyOptSeg, paramKeys]

/-- Pair membership in a legacy conditional segment: the stored value is
always Python `None`. -/
theorem mem_legacyOptSeg (n m : String) (w : Value) (v? : Option Value) :
    (n, w) ∈ legacyOptSeg m v? ↔ n = m ∧ w = Value.vnull ∧ v? = none := by
  cases v? <;> simp [legacyOptSeg]

/-- Keys of an appended parameter mapping. -/
theorem paramKeys_append (a b : List (String × Value)) :
    paramKeys (a ++ b) = paramKeys a ++ paramKeys b := List.map_append _ a b

/-- Keys of a cons parameter mapping. -/
theorem paramKeys_cons (kv : String × Value) (ps : List (String × Value)) :
    paramKeys (kv :: ps) = kv.1 :: paramKeys ps := rfl

/-- Keys of the empty parameter mapping. -/
theorem paramKeys_nil : paramKeys ([] : List (String × Value)) = [] := rfl

/-- C2 counterexample: in the legacy client, calling `search` with NO
optional parameters supplied produces an outgoing query-parameter mapping
(after the dispatcher's transform) that does contain the key `query`
(with value `None`), refuting the claim that an unsupplied parameter never
appears in the outgoing mapping in both client variants. -/
theorem c2_counterexample :
    ("query", Value.vnull) ∈
      transformParams (legacySearchParams none none none none none none none none false) ∧
    "query" ∈ paramKeys (legacySearchParams none none none none none none none none false) := by
  exact ⟨by decide, by decide⟩

/-- C2 amended: in the newer client an optional parameter appears in the
outgoing query-parameter mapping exactly when the caller supplied it
(`facets` builds the identical mapping as `search`, and the remaining
action methods emit only their fixed `pretty`/`volatile`/`commit` keys, so
the optional parameters never appear there); in the legacy client the
polarity is inverted: an optional parameter appears — with value `None` —
exactly when the caller did NOT supply it. -/
theorem c2_amended (q p2 t o l s f g : Option Value) (pretty volatile : Bool)
    (c : Xapiand) (lc : XapiandLegacy) (commit? : Option Bool) :
    ("query" ∈ paramKeys (newSearchParams q p2 t o l s f g pretty volatile) ↔ q ≠ none) ∧
    ("partial" ∈ paramKeys (newSearchParams q p2 t o l s f g pretty volatile) ↔ p2 ≠ none) ∧
    ("terms" ∈ paramKeys (newSearchParams q p2 t o l s f g pretty volatile) ↔ t ≠ none) ∧
    ("offset" ∈ paramKeys (newSearchParams q p2 t o l s f g pretty volatile) ↔ o ≠ none) ∧
    ("limit" ∈ paramKeys (newSearchParams q p2 t o l s f g pretty volatile) ↔ l ≠ none) ∧
    ("sort" ∈ paramKeys (newSearchParams q p2 t o l s f g pretty volatile) ↔ s ≠ none) ∧
    ("facets" ∈ paramKeys (newSearchParams q p2 t o l s f g pretty volatile) ↔ f ≠ none) ∧
    ("language" ∈ paramKeys (newSearchParams q p2 t o l s f g pretty volatile) ↔ g ≠ none) ∧
    newFacetsParams q p2 t o l s f g pretty volatile =
      newSearchParams q p2 t o l s f g pretty volatile ∧
    paramKeys (newStatsParams pretty) = ["pretty"] ∧
    paramKeys (newHeadParams pretty) = ["pretty"] ∧
    paramKeys (newGetParams pretty volatile) = ["pretty", "volatile"] ∧
    paramKeys (newDeleteParams c commit? pretty) = ["commit", "pretty"] ∧
    paramKeys (newPostParams c commit? pretty) = ["commit", "pretty"] ∧
    paramKeys (newPutParams c commit? pretty) = ["commit", "pretty"] ∧
    paramKeys (newPatchParams c commit? pretty) = ["commit", "pretty"] ∧
    ("query" ∈ paramKeys (legacySearchParams q p2 t o l s f g pretty) ↔ q = none) ∧
    ("partial" ∈ paramKeys (legacySearchParams q p2 t o l s f g pretty) ↔ p2 = none) ∧
    ("terms" ∈ paramKeys (legacySearchParams q p2 t o l s f g pretty) ↔ t = none) ∧
    ("offset" ∈ paramKeys (legacySearchParams q p2 t o l s f g pretty) ↔ o = none) ∧
    ("limit" ∈ paramKeys (legacySearchParams q p2 t o l s f g pretty) ↔ l = none) ∧
    ("sort" ∈ paramKeys (legacySearchParams q p2 t o l s f g pretty) ↔ s = none) ∧
    ("facets" ∈ paramKeys (legacySearchParams q p2 t o l s f g pretty) ↔ f = none) ∧
    ("language" ∈ paramKeys (legacySearchParams q p2 t o l s f g pretty) ↔ g = none) ∧
    (("query", Value.vnull) ∈ legacySearchParams q p2 t o l s f g pretty ↔ q = none) ∧
    legacyFacetsParams q p2 t o l s f g pretty =
      legacySearchParams q p2 t o l s f g pretty ∧
    paramKeys (legacyStatsParams pretty) = ["pretty"] ∧
    paramKeys (legacyHeadParams pretty) = ["pretty"] ∧
    paramKeys (legacyGetParams pretty) = ["pretty"] ∧
    paramKeys (legacyDeleteParams lc commit? pretty) = ["commit", "pretty"] ∧
    paramKeys (legacyIndexParams lc commit? pretty) = ["commit", "pretty"] ∧
    paramKeys (legacyPatchParams lc commit? pretty) = ["commit", "pretty"] := by
  refine ⟨?_, ?_, ?_, ?_, ?_, ?_, ?_, ?_, rfl, rfl, rfl, rfl, rfl, rfl, rfl, rfl,
    ?_, ?_, ?_, ?_, ?_, ?_, ?_, ?_, ?_, rfl, rfl, rfl, rfl, rfl, rfl, rfl⟩ <;>
    simp [newSearchParams, legacySearchParams, paramKeys_append, paramKeys_cons,
      paramKeys_nil, List.mem_append, mem_paramKeys_optSeg, mem_paramKeys_legacyOptSeg,
      mem_legacyOptSeg]

/-- C3 counterexample: on the blank-line-framed chunks
`["\x7b\"a\":1\x7d", "]", "\x7b\"b\":2"]` the decoder skips the
bracket-only line and yields `\x7b"a":1\x7d`, but it does NOT complete the
truncated third chunk — the `]\x7d\x7d` completion fires only for a line
whose right-stripped form ends in `[`, and `\x7b"b":2` ends in `2` — so
`json.loads` raises on it and only ONE object is yielded, not the claimed
two. -/
theorem c3_counterexample :
    decodeLines ["\x7b\"a\":1\x7d", "]", "\x7b\"b\":2"] =
      ([Json.obj [("a", Json.num 1)]], true) ∧
    (decodeLines ["\x7b\"a\":1\x7d", "]", "\x7b\"b\":2"]).1.length ≠ 2 := by
  exact ⟨rfl, by decide⟩

/-- C3 amended: on those chunks the decoder skips the line consisting
solely of a closing bracket and yields the decoded object `\x7b"a":1\x7d`,
then aborts with a decode error on the truncated chunk `\x7b"b":2` (which
is passed to the parser unmodified, since the closing-fragment completion
applies only to a line ending in an open bracket, where it does produce a
parseable document); the yielded sequence is single-pass — a second
iteration over the shared iterator state yields nothing. -/
theorem c3_amended :
    decodeLines ["\x7b\"a\":1\x7d", "]", "\x7b\"b\":2"] =
      ([Json.obj [("a", Json.num 1)]], true) ∧
    lineStep "]" = LineStep.skip ∧
    lineStep "\x7b\"b\":2" = LineStep.parse "\x7b\"b\":2" ∧
    jsonLoads "\x7b\"b\":2" = none ∧
    lineStep "\x7b\"q\": \x7b\"h\": [" = LineStep.parse "\x7b\"q\": \x7b\"h\": []\x7d\x7d" ∧
    jsonLoads "\x7b\"q\": \x7b\"h\": []\x7d\x7d" =
      some (Json.obj [("q", Json.obj [("h", Json.arr [])])]) ∧
    (resultsDrain ⟨(decodeLines ["\x7b\"a\":1\x7d", "]", "\x7b\"b\":2"]).1⟩).1 =
      [Json.obj [("a", Json.num 1)]] ∧
    (resultsDrain
      (resultsDrain ⟨(decodeLines ["\x7b\"a\":1\x7d", "]", "\x7b\"b\":2"]).1⟩).2).1 = [] :=
  ⟨rfl, rfl, rfl, rfl, rfl, rfl, rfl, rfl⟩

/-- Lookup of the unprefixed name `total_count` among attributes filtered
to underscore-prefixed keys always misses. -/
theorem lookup_total_count_filtered (l : List (String × Json)) :
    List.lookup "total_count" (l.filter (fun kv => lstartsWith kv.1 "_")) = none := by
  induction l with
  | nil => rfl
  | cons kv tl ih =>
    by_cases h : lstartsWith kv.1 "_" = true
    · rw [List.filter_cons, if_pos h]
      have hne : ("total_count" == kv.1) = false := by
        rw [beq_eq_false_iff_ne]
        intro he
        rw [← he] at h
        exact absurd h (by decide)
      simp [List.lookup, hne, ih]
    · rw [List.filter_cons, if_neg h]
      exact ih

/-- One-sided lookup through an appended attribute list. -/
theorem lookup_append_left {α β : Type} [BEq α] (k : α) (a b : List (α × β)) (v : β)
    (h : List.lookup k a = some v) : List.lookup k (a ++ b) = some v := by
  induction a with
  | nil => simp [List.lookup] at h
  | cons kv tl ih =>
    rw [List.cons_append]
    rw [List.lookup] at h ⊢
    cases hk : (k == kv.1) with
    | true => rw [hk] at h; exact h
    | false => rw [hk] at h; exact ih h

/-- Draining a generator yields all its elements and leaves none. -/
theorem drainFrom_eq (g : List Json) : drainFrom g = (g, []) := by
  induction g with
  | nil => rfl
  | cons x xs ih => simp [drainFrom, ih]

/-- C9 counterexample: a `Results` object built from a streamed metadata
record whose `_query` carries `_total_count = 5` reports length 0, not 5:
`__init__` stores the field under its underscore-prefixed name
`_total_count`, while `__len__` reads the attribute `total_count`. -/
theorem c9_counterexample :
    resultsLen (resultsInitAttrs
      (Json.obj [("_query", Json.obj [("_total_count", Json.num 5)])])) = 0 ∧
    (0 : Int) ≠ 5 :=
  ⟨rfl, by decide⟩

/-- C9 amended: the length a `Results` wrapper reports is
`int(getattr(self, 'total_count', 0))`; the leading metadata record's
underscore-prefixed `_query` fields are stored under their original
underscore-prefixed names and therefore never define the length, which is
0 from the metadata alone for every metadata record; only a separately set
`total_count` attribute — e.g. copied from a response header named
`total-count` — yields a nonzero length. Iteration is single-pass and
non-restartable: `__iter__` returns the object itself, so draining it once
leaves a shared state from which a second iteration yields nothing. -/
theorem c9_amended (meta : Json) (headers : List (String × Json)) (g : List Json)
    (n : Int) :
    resultsLen (resultsInitAttrs meta) = 0 ∧
    (List.lookup "total_count"
        (headers.map (fun kv => (headerAttrName kv.1, kv.2))) = some (Json.num n) →
      resultsLen (resultsAttrs meta headers) = n) ∧
    (resultsDrain ⟨g⟩).1 = g ∧
    (resultsDrain (resultsDrain ⟨g⟩).2).1 = [] := by
  refine ⟨?_, ?_, ?_, ?_⟩
  · simp only [resultsLen, getattrD, resultsInitAttrs]
    rw [lookup_total_count_filtered]
    rfl
  · intro h
    have h2 := lookup_append_left "total_count"
      (headers.map (fun kv => (headerAttrName kv.1, kv.2))) (resultsInitAttrs meta)
      (Json.num n) h
    simp only [resultsLen, getattrD, resultsAttrs]
    rw [h2]
    rfl
  · simp [resultsDrain, drainFrom_eq]
  · simp [resultsDrain, drainFrom_eq]

/-- Witness for `c9_amended`: a `total-count: 7` response header makes the
reported length 7. -/
theorem c9_amended_witness :
    resultsLen (resultsAttrs (Json.obj []) [("total-count", Json.num 7)]) = 7 :=
  (c9_amended (Json.obj []) [("total-count", Json.num 7)] [] 7).2.1 rfl
